import Mathlib

/- Verification development for the cadutil core library
   (src/core/src/librecad_core.cpp, src/core/include/librecad_core.h).

   Shallow embedding conventions:
   * C++ `double` values are modelled as exact rationals (ℚ); the constant
     `M_PI` is modelled by the exact rational value of the IEEE-754 double
     closest to π (884279719003555 / 2^48), which is the value the compiled
     program actually uses.
   * C++ `int` is modelled as `Int`; the non-negative counters of the JWW
     writer, which start at 0 and are only incremented, are modelled as `Nat`.
   * `std::vector` push_back becomes list append; `std::map<std::string,bool>`
     keyed by inserted names, queried with `find`, becomes membership in the
     list of names.
   * The reader callbacks of `DRW_Interface` / `DL_CreationInterface` return
     `void` in the source and have no failure channel.  To make "a read
     failure" expressible (several claims speak about reads failing), event
     processing is wrapped in `Except ReadError`; every callback of the
     source returns normally, so every branch returns `.ok`.
   * Calls into the C math library (`sqrt`, `atan2`, `cos`, `sin`) are kept
     abstract as a `FloatOps` parameter; no claim depends on their values.
-/

/- ============================================================
   Geometry primitives (DRW_Coord, double triple)
   ============================================================ -/

structure DRWCoord where
  x : ℚ
  y : ℚ
  z : ℚ
deriving DecidableEq

/- LcEntityType from librecad_core.h (LC_ENTITY_*); `face3d` stands for
   LC_ENTITY_3DFACE (a Lean identifier cannot start with a digit). -/
inductive LcEntityType
  | unknown
  | point
  | line
  | circle
  | arc
  | ellipse
  | polyline
  | lwpolyline
  | spline
  | text
  | mtext
  | insert
  | hatch
  | dimension
  | leader
  | solid
  | trace
  | face3d
  | image
  | viewport
deriving DecidableEq

/- LcSeverity from librecad_core.h. -/
inductive LcSeverity
  | info
  | warning
  | error
deriving DecidableEq

/- ============================================================
   Internal data structures (librecad_core.cpp, lines 36-75)
   ============================================================ -/

structure LayerData where
  name : String
  color : Int := 7
  lineType : String := "CONTINUOUS"
  lineWeight : ℚ := 0
  off : Bool := false
  frozen : Bool := false
  locked : Bool := false
deriving DecidableEq

/- BlockData: the `entities` vector exists in the source but no code path
   ever appends to it. -/
structure BlockData where
  name : String
  basePoint : DRWCoord := ⟨0, 0, 0⟩
  entities : List Unit := []
deriving DecidableEq

/- EntityData with the source's field defaults (simplified flat storage,
   exactly as in the source struct). -/
structure EntityData where
  type : LcEntityType := .unknown
  layer : String := ""
  color : Int := 256
  lineType : String := "BYLAYER"
  lineWeight : ℚ := -1
  handle : Int := 0
  point1 : DRWCoord := ⟨0, 0, 0⟩
  point2 : DRWCoord := ⟨0, 0, 0⟩
  radius : ℚ := 0
  startAngle : ℚ := 0
  endAngle : ℚ := 0
  text : String := ""
  blockName : String := ""
  height : ℚ := 0
  rotation : ℚ := 0
  scaleX : ℚ := 1
  scaleY : ℚ := 1
  vertexCount : Int := 0
  degree : Int := 0
  closed : Bool := false
deriving DecidableEq

/- DocumentImpl (librecad_core.cpp, lines 81-105).  `currentBlock` is a
   pointer to an element of `blocks` in the source; modelled as the index of
   that element (`none` for the nullptr / model-space state).  Bounds are
   initialised to (1e20, -1e20) per axis; 1e20 is exactly representable as a
   double, so the rational is exact. -/
structure DocumentImpl where
  filename : String := ""
  dxfVersion : String := ""
  layers : List LayerData := []
  blocks : List BlockData := []
  entities : List EntityData := []
  minBound : DRWCoord := ⟨10 ^ 20, 10 ^ 20, 10 ^ 20⟩
  maxBound : DRWCoord := ⟨-(10 ^ 20), -(10 ^ 20), -(10 ^ 20)⟩
  currentBlock : Option Nat := none
deriving DecidableEq

/- DocumentImpl::updateBounds (lines 107-114). -/
def DocumentImpl.updateBounds (d : DocumentImpl) (p : DRWCoord) : DocumentImpl :=
  { d with
    minBound := ⟨min d.minBound.x p.x, min d.minBound.y p.y, min d.minBound.z p.z⟩
    maxBound := ⟨max d.maxBound.x p.x, max d.maxBound.y p.y, max d.maxBound.z p.z⟩ }

/- DocumentImpl::addEntityData (lines 116-118). -/
def DocumentImpl.addEntityData (d : DocumentImpl) (e : EntityData) : DocumentImpl :=
  { d with entities := d.entities ++ [e] }

/- ============================================================
   DXF drawing-event payloads (the DRW_* structs, as used here)
   ============================================================ -/

structure DRW_Layer where
  name : String
  color : Int := 7
  lineType : String := "CONTINUOUS"
  lWeight : ℚ := 0
  flags : Nat := 0
deriving DecidableEq

structure DRW_Block where
  name : String
  basePoint : DRWCoord := ⟨0, 0, 0⟩
deriving DecidableEq

structure DRW_Point where
  layer : String := ""
  color : Int := 256
  lineType : String := "BYLAYER"
  handle : Int := 0
  basePoint : DRWCoord := ⟨0, 0, 0⟩
deriving DecidableEq

structure DRW_Line where
  layer : String := ""
  color : Int := 256
  lineType : String := "BYLAYER"
  handle : Int := 0
  basePoint : DRWCoord := ⟨0, 0, 0⟩
  secPoint : DRWCoord := ⟨0, 0, 0⟩
deriving DecidableEq

structure DRW_Circle where
  layer : String := ""
  color : Int := 256
  lineType : String := "BYLAYER"
  handle : Int := 0
  basePoint : DRWCoord := ⟨0, 0, 0⟩
  radious : ℚ := 0
deriving DecidableEq

structure DRW_Arc where
  layer : String := ""
  color : Int := 256
  lineType : String := "BYLAYER"
  handle : Int := 0
  basePoint : DRWCoord := ⟨0, 0, 0⟩
  radious : ℚ := 0
  staangle : ℚ := 0
  endangle : ℚ := 0
deriving DecidableEq

/- ============================================================
   DXF reader adapter: DRW_Interface callbacks on DocumentImpl
   ============================================================ -/

/- DocumentImpl::addLayer (lines 136-146): translate DXF layer bitflags
   {1: off, 2: frozen, 4: locked} and append unconditionally. -/
def DocumentImpl.addLayer (d : DocumentImpl) (data : DRW_Layer) : DocumentImpl :=
  { d with layers := d.layers ++
      [{ name := data.name
         color := data.color
         lineType := data.lineType
         lineWeight := data.lWeight
         off := (data.flags &&& 1) != 0
         frozen := (data.flags &&& 2) != 0
         locked := (data.flags &&& 4) != 0 }] }

/- DocumentImpl::addBlock (lines 162-168): push the block and make it
   current.  No check that a block is already open. -/
def DocumentImpl.addBlock (d : DocumentImpl) (data : DRW_Block) : DocumentImpl :=
  { d with blocks := d.blocks ++ [{ name := data.name, basePoint := data.basePoint }]
           currentBlock := some d.blocks.length }

/- DocumentImpl::endBlock (lines 172-174): reset to model space.  No check
   that a block is open. -/
def DocumentImpl.endBlock (d : DocumentImpl) : DocumentImpl :=
  { d with currentBlock := none }

/- DocumentImpl::addPoint (lines 176-186). -/
def DocumentImpl.addPoint (d : DocumentImpl) (data : DRW_Point) : DocumentImpl :=
  let e : EntityData :=
    { type := .point, layer := data.layer, color := data.color,
      lineType := data.lineType, handle := data.handle, point1 := data.basePoint }
  (d.addEntityData e).updateBounds data.basePoint

/- DocumentImpl::addLine (lines 188-200). -/
def DocumentImpl.addLine (d : DocumentImpl) (data : DRW_Line) : DocumentImpl :=
  let e : EntityData :=
    { type := .line, layer := data.layer, color := data.color,
      lineType := data.lineType, handle := data.handle,
      point1 := data.basePoint, point2 := data.secPoint }
  ((d.addEntityData e).updateBounds data.basePoint).updateBounds data.secPoint

/- DocumentImpl::addArc (lines 205-221): bounds are extended by the two
   corners (centre - radius, centre + radius) on x and y. -/
def DocumentImpl.addArc (d : DocumentImpl) (data : DRW_Arc) : DocumentImpl :=
  let e : EntityData :=
    { type := .arc, layer := data.layer, color := data.color,
      lineType := data.lineType, handle := data.handle,
      point1 := data.basePoint, radius := data.radious,
      startAngle := data.staangle, endAngle := data.endangle }
  let c := data.basePoint
  ((d.addEntityData e).updateBounds
      ⟨c.x - data.radious, c.y - data.radious, c.z⟩).updateBounds
    ⟨c.x + data.radious, c.y + data.radious, c.z⟩

/- DocumentImpl::addCircle (lines 223-236). -/
def DocumentImpl.addCircle (d : DocumentImpl) (data : DRW_Circle) : DocumentImpl :=
  let e : EntityData :=
    { type := .circle, layer := data.layer, color := data.color,
      lineType := data.lineType, handle := data.handle,
      point1 := data.basePoint, radius := data.radious }
  let c := data.basePoint
  ((d.addEntityData e).updateBounds
      ⟨c.x - data.radious, c.y - data.radious, c.z⟩).updateBounds
    ⟨c.x + data.radious, c.y + data.radious, c.z⟩

/- Read failure taxonomy relevant to the claims. -/
inductive ReadError
  | ioError
  | malformedInput
  | unsupportedFormat
deriving DecidableEq

/- Drawing events delivered by the external DXF tag-stream parser to
   DRW_Interface. -/
inductive ReadEvent
  | layer (data : DRW_Layer)
  | blockBegin (data : DRW_Block)
  | blockEnd
  | point (data : DRW_Point)
  | line (data : DRW_Line)
  | circle (data : DRW_Circle)
  | arc (data : DRW_Arc)
deriving DecidableEq

/- One DXF drawing event against the document.  The source callbacks return
   void and cannot fail, so every branch returns `.ok`. -/
def DocumentImpl.processEvent (d : DocumentImpl) : ReadEvent → Except ReadError DocumentImpl
  | .layer data => .ok (d.addLayer data)
  | .blockBegin data => .ok (d.addBlock data)
  | .blockEnd => .ok d.endBlock
  | .point data => .ok (d.addPoint data)
  | .line data => .ok (d.addLine data)
  | .circle data => .ok (d.addCircle data)
  | .arc data => .ok (d.addArc data)

def DocumentImpl.processEvents (d : DocumentImpl) (evs : List ReadEvent) :
    Except ReadError DocumentImpl :=
  evs.foldlM DocumentImpl.processEvent d

/- ============================================================
   JWW reader adapter: DL_CreationInterface callbacks (JwwReaderImpl)
   ============================================================ -/

structure DL_LayerData where
  name : String
deriving DecidableEq

structure DL_BlockData where
  name : String
  bpx : ℚ := 0
  bpy : ℚ := 0
  bpz : ℚ := 0
deriving DecidableEq

structure DL_PointData where
  x : ℚ
  y : ℚ
  z : ℚ
deriving DecidableEq

structure DL_LineData where
  x1 : ℚ
  y1 : ℚ
  z1 : ℚ
  x2 : ℚ
  y2 : ℚ
  z2 : ℚ
deriving DecidableEq

structure DL_ArcData where
  cx : ℚ
  cy : ℚ
  cz : ℚ
  radius : ℚ
  angle1 : ℚ := 0
  angle2 : ℚ := 0
deriving DecidableEq

structure DL_CircleData where
  cx : ℚ
  cy : ℚ
  cz : ℚ
  radius : ℚ
deriving DecidableEq

/- JwwReaderImpl::addLayer (lines 863-867): only the name is taken; the
   remaining LayerData fields keep their struct defaults. -/
def JwwReaderImpl.addLayer (d : DocumentImpl) (data : DL_LayerData) : DocumentImpl :=
  { d with layers := d.layers ++ [{ name := data.name }] }

/- JwwReaderImpl::addBlock (lines 869-874): push the block; `currentBlock`
   is not touched. -/
def JwwReaderImpl.addBlock (d : DocumentImpl) (data : DL_BlockData) : DocumentImpl :=
  { d with blocks := d.blocks ++
      [{ name := data.name, basePoint := ⟨data.bpx, data.bpy, data.bpz⟩ }] }

/- JwwReaderImpl::endBlock (line 876): a no-op. -/
def JwwReaderImpl.endBlock (d : DocumentImpl) : DocumentImpl := d

/- JwwReaderImpl::addPoint (lines 878-884): adds the entity and updates
   bounds. -/
def JwwReaderImpl.addPoint (d : DocumentImpl) (data : DL_PointData) : DocumentImpl :=
  let e : EntityData := { type := .point, point1 := ⟨data.x, data.y, data.z⟩ }
  (d.addEntityData e).updateBounds e.point1

/- JwwReaderImpl::addLine (lines 886-894). -/
def JwwReaderImpl.addLine (d : DocumentImpl) (data : DL_LineData) : DocumentImpl :=
  let e : EntityData :=
    { type := .line, point1 := ⟨data.x1, data.y1, data.z1⟩,
      point2 := ⟨data.x2, data.y2, data.z2⟩ }
  ((d.addEntityData e).updateBounds e.point1).updateBounds e.point2

/- JwwReaderImpl::addArc (lines 896-904): adds the entity; `updateBounds`
   is NOT called. -/
def JwwReaderImpl.addArc (d : DocumentImpl) (data : DL_ArcData) : DocumentImpl :=
  let e : EntityData :=
    { type := .arc, point1 := ⟨data.cx, data.cy, data.cz⟩,
      radius := data.radius, startAngle := data.angle1, endAngle := data.angle2 }
  d.addEntityData e

/- JwwReaderImpl::addCircle (lines 906-912): adds the entity; `updateBounds`
   is NOT called. -/
def JwwReaderImpl.addCircle (d : DocumentImpl) (data : DL_CircleData) : DocumentImpl :=
  let e : EntityData :=
    { type := .circle, point1 := ⟨data.cx, data.cy, data.cz⟩,
      radius := data.radius }
  d.addEntityData e

inductive JwwEvent
  | layer (data : DL_LayerData)
  | blockBegin (data : DL_BlockData)
  | blockEnd
  | point (data : DL_PointData)
  | line (data : DL_LineData)
  | arc (data : DL_ArcData)
  | circle (data : DL_CircleData)
deriving DecidableEq

/- One JWW drawing event; as for DXF, no source callback can fail. -/
def JwwReaderImpl.processEvent (d : DocumentImpl) : JwwEvent → Except ReadError DocumentImpl
  | .layer data => .ok (JwwReaderImpl.addLayer d data)
  | .blockBegin data => .ok (JwwReaderImpl.addBlock d data)
  | .blockEnd => .ok (JwwReaderImpl.endBlock d)
  | .point data => .ok (JwwReaderImpl.addPoint d data)
  | .line data => .ok (JwwReaderImpl.addLine d data)
  | .arc data => .ok (JwwReaderImpl.addArc d data)
  | .circle data => .ok (JwwReaderImpl.addCircle d data)

def JwwReaderImpl.processEvents (d : DocumentImpl) (evs : List JwwEvent) :
    Except ReadError DocumentImpl :=
  evs.foldlM JwwReaderImpl.processEvent d

/- ============================================================
   Validator (lc_document_validate, lines 1556-1669; lc_validate 1536-1554)
   ============================================================ -/

structure LcValidationIssue where
  severity : LcSeverity
  code : String
  message : String
  location : String
deriving DecidableEq

structure LcValidationResult where
  is_valid : Bool
  issue_count : Nat
  issues : List LcValidationIssue
deriving DecidableEq

/- The three document-scope issues of lc_document_validate, with the
   source's literal severity, code, message and location strings. -/
def emptyDrawingIssue : LcValidationIssue :=
  { severity := .warning, code := "EMPTY_DRAWING",
    message := "Drawing contains no entities", location := "" }

def missingLayer0Issue : LcValidationIssue :=
  { severity := .warning, code := "MISSING_LAYER_0",
    message := "Standard layer '0' not found", location := "" }

def invalidBoundsIssue : LcValidationIssue :=
  { severity := .info, code := "INVALID_BOUNDS",
    message := "Drawing bounds are invalid (possibly empty drawing)",
    location := "" }

/- The three per-entity checks of lc_document_validate (lines 1602-1639), in
   source order, for the entity at document index `idx`.  `layerNames` and
   `blockNames` are the key sets of the source's std::maps, i.e. the lists of
   layer / block names. -/
def entityChecks (layerNames blockNames : List String) (idx : Nat) (e : EntityData) :
    List LcValidationIssue :=
  (if e.layer ≠ "" ∧ ¬ layerNames.contains e.layer then
      [{ severity := .error, code := "UNDEFINED_LAYER",
         message := "Entity references undefined layer: " ++ e.layer,
         location := "entity #" ++ Nat.repr idx }]
    else []) ++
  (if e.type = .insert ∧ e.blockName ≠ "" ∧ ¬ blockNames.contains e.blockName then
      [{ severity := .error, code := "UNDEFINED_BLOCK",
         message := "Insert references undefined block: " ++ e.blockName,
         location := "entity #" ++ Nat.repr idx }]
    else []) ++
  (if (e.type = .circle ∨ e.type = .arc) ∧ e.radius ≤ 0 then
      [{ severity := .error, code := "INVALID_RADIUS",
         message := "Circle/Arc has invalid radius",
         location := "entity #" ++ Nat.repr idx }]
    else [])

/- lc_document_validate (lines 1556-1669).  The final `is_valid` scan of the
   issue list (lines 1652-1658) is the fold; setting it to 0 and breaking at
   the first error-severity issue computes the same value as folding over the
   whole list. -/
def lc_document_validate (d : DocumentImpl) : LcValidationResult :=
  let issues0 : List LcValidationIssue :=
    if d.entities.isEmpty then [emptyDrawingIssue] else []
  let hasLayer0 := d.layers.any fun l => l.name == "0"
  let issues1 := issues0 ++
    (if ¬ hasLayer0 ∧ ¬ d.layers.isEmpty then [missingLayer0Issue] else [])
  let layerNames := d.layers.map fun l => l.name
  let blockNames := d.blocks.map fun b => b.name
  let entityIssues :=
    (d.entities.foldl
      (fun (p : Nat × List LcValidationIssue) e =>
        (p.1 + 1, p.2 ++ entityChecks layerNames blockNames p.1 e))
      (0, [])).2
  let issues2 := issues1 ++ entityIssues
  let issues := issues2 ++
    (if d.minBound.x > d.maxBound.x then [invalidBoundsIssue] else [])
  let isValid := issues.foldl (fun v i => if i.severity = .error then false else v) true
  { is_valid := isValid, issue_count := issues.length, issues := issues }

/- lc_validate (lines 1536-1554).  Opening the file is done by external
   collaborators (file I/O plus the format parsers); its outcome is passed in
   as `openResult`, with `none` for a failed open, and `lastError` is the
   thread-local error text that the failed open left behind. -/
def lc_validate (openResult : Option DocumentImpl) (filename lastError : String) :
    LcValidationResult :=
  match openResult with
  | none =>
      { is_valid := false, issue_count := 1,
        issues := [{ severity := .error, code := "FILE_ERROR",
                     message := lastError, location := filename }] }
  | some d => lc_document_validate d

/- ============================================================
   JWW writer (lc_document_save_jww, lines 1722-1960)
   ============================================================ -/

/- The exact rational value of the IEEE-754 double constant M_PI. -/
def mPi : ℚ := 884279719003555 / 2 ^ 48

/- The value of the source expression `2.0 * M_PI` (exact: doubling a double
   is exact). -/
def twoPi : ℚ := 2 * mPi

/- Exact rational values of the IEEE-754 doubles nearest the source's
   literals 0.8, 0.6 and 0.001 (none of which is exactly representable). -/
def double_0_8 : ℚ := 3602879701896397 / 2 ^ 52

def double_0_6 : ℚ := 5404319552844595 / 2 ^ 53

def double_0_001 : ℚ := 1152921504606847 / 2 ^ 60

/- Pen colour written on JWW emission; the source repeats the expression
   `e.color > 0 && e.color < 10 ? e.color : 1` in every entity case. -/
def jwwPenColor (c : Int) : Int :=
  if 0 < c ∧ c < 10 then c else 1

/- Abstract interface to the C math library calls made by the JWW writer;
   no claim depends on their values. -/
structure FloatOps where
  sqrt : ℚ → ℚ
  atan2 : ℚ → ℚ → ℚ
  cos : ℚ → ℚ
  sin : ℚ → ℚ

def zeroFloatOps : FloatOps :=
  { sqrt := fun _ => 0, atan2 := fun _ _ => 0, cos := fun _ => 0, sin := fun _ => 0 }

structure CDPoint where
  x : ℚ
  y : ℚ
deriving DecidableEq

/- JWW record types (fields the writer populates with entity-dependent
   values; fields set to fixed constants for every record, such as
   m_lGroup = 0 or m_nPenWidth = 1, are omitted). -/

structure CDataTen where
  m_start : CDPoint
  m_nPenColor : Int
deriving DecidableEq

structure CDataSen where
  m_start : CDPoint
  m_end : CDPoint
  m_nPenColor : Int
deriving DecidableEq

structure CDataEnko where
  m_start : CDPoint
  m_dHankei : ℚ
  m_radKaishiKaku : ℚ
  m_radEnkoKaku : ℚ
  m_radKatamukiKaku : ℚ
  m_dHenpeiRitsu : ℚ
  m_bZenEnFlg : Int
  m_nPenColor : Int
deriving DecidableEq

structure CDataMoji where
  m_start : CDPoint
  m_end : CDPoint
  m_dSizeX : ℚ
  m_dSizeY : ℚ
  m_degKakudo : ℚ
  m_string : String
  m_nPenColor : Int
deriving DecidableEq

structure CDataSolid where
  m_start : CDPoint
  m_end : CDPoint
  m_DPoint2 : CDPoint
  m_DPoint3 : CDPoint
  m_Color : Int
  m_nPenColor : Int
deriving DecidableEq

/- The JWW output document: the record vectors and section counters touched
   by the export loop.  All counters are set to 0 before the loop (lines
   1771-1778); the record vectors of a freshly constructed JWWDocument with no
   input file are empty. -/
structure JWWDocument where
  vTen : List CDataTen := []
  vSen : List CDataSen := []
  vEnko : List CDataEnko := []
  vMoji : List CDataMoji := []
  vSolid : List CDataSolid := []
  SaveTenCount : Nat := 0
  SaveSenCount : Nat := 0
  SaveEnkoCount : Nat := 0
  SaveMojiCount : Nat := 0
  SaveSunpouCount : Nat := 0
  SaveSolidCount : Nat := 0
  SaveBlockCount : Nat := 0
  SaveDataListCount : Nat := 0
deriving DecidableEq

/- One iteration of the export loop of lc_document_save_jww (lines
   1781-1951): dispatch on the entity kind, push one record and bump the
   matching counter; unsupported kinds are skipped. -/
def saveJwwEntity (ops : FloatOps) (j : JWWDocument) (e : EntityData) : JWWDocument :=
  match e.type with
  | .point =>
      { j with
        vTen := j.vTen ++
          [{ m_start := ⟨e.point1.x, e.point1.y⟩, m_nPenColor := jwwPenColor e.color }]
        SaveTenCount := j.SaveTenCount + 1 }
  | .line =>
      { j with
        vSen := j.vSen ++
          [{ m_start := ⟨e.point1.x, e.point1.y⟩, m_end := ⟨e.point2.x, e.point2.y⟩,
             m_nPenColor := jwwPenColor e.color }]
        SaveSenCount := j.SaveSenCount + 1 }
  | .circle =>
      { j with
        vEnko := j.vEnko ++
          [{ m_start := ⟨e.point1.x, e.point1.y⟩, m_dHankei := e.radius,
             m_radKaishiKaku := 0, m_radEnkoKaku := twoPi,
             m_radKatamukiKaku := 0, m_dHenpeiRitsu := 1, m_bZenEnFlg := 1,
             m_nPenColor := jwwPenColor e.color }]
        SaveEnkoCount := j.SaveEnkoCount + 1 }
  | .arc =>
      let arcAngle := e.endAngle - e.startAngle
      let arcAngle := if arcAngle < 0 then arcAngle + twoPi else arcAngle
      { j with
        vEnko := j.vEnko ++
          [{ m_start := ⟨e.point1.x, e.point1.y⟩, m_dHankei := e.radius,
             m_radKaishiKaku := e.startAngle, m_radEnkoKaku := arcAngle,
             m_radKatamukiKaku := 0, m_dHenpeiRitsu := 1, m_bZenEnFlg := 0,
             m_nPenColor := jwwPenColor e.color }]
        SaveEnkoCount := j.SaveEnkoCount + 1 }
  | .ellipse =>
      let majorLen := ops.sqrt (e.point2.x * e.point2.x + e.point2.y * e.point2.y)
      let arcAngle := e.endAngle - e.startAngle
      let arcAngle := if arcAngle ≤ 0 then arcAngle + twoPi else arcAngle
      { j with
        vEnko := j.vEnko ++
          [{ m_start := ⟨e.point1.x, e.point1.y⟩, m_dHankei := majorLen,
             m_radKaishiKaku := e.startAngle, m_radEnkoKaku := arcAngle,
             m_radKatamukiKaku := ops.atan2 e.point2.y e.point2.x,
             m_dHenpeiRitsu := e.radius,
             m_bZenEnFlg := if arcAngle ≥ twoPi - double_0_001 then 1 else 0,
             m_nPenColor := jwwPenColor e.color }]
        SaveEnkoCount := j.SaveEnkoCount + 1 }
  | .text =>
      let textLen := (e.text.length : ℚ) * e.height * double_0_6
      { j with
        vMoji := j.vMoji ++
          [{ m_start := ⟨e.point1.x, e.point1.y⟩,
             m_end := ⟨e.point1.x + textLen * ops.cos e.rotation,
                       e.point1.y + textLen * ops.sin e.rotation⟩,
             m_dSizeX := if e.height > 0 then e.height * double_0_8 else 2,
             m_dSizeY := if e.height > 0 then e.height else 5 / 2,
             m_degKakudo := e.rotation * 180 / mPi,
             m_string := e.text, m_nPenColor := jwwPenColor e.color }]
        SaveMojiCount := j.SaveMojiCount + 1 }
  | .mtext =>
      let textLen := (e.text.length : ℚ) * e.height * double_0_6
      { j with
        vMoji := j.vMoji ++
          [{ m_start := ⟨e.point1.x, e.point1.y⟩,
             m_end := ⟨e.point1.x + textLen * ops.cos e.rotation,
                       e.point1.y + textLen * ops.sin e.rotation⟩,
             m_dSizeX := if e.height > 0 then e.height * double_0_8 else 2,
             m_dSizeY := if e.height > 0 then e.height else 5 / 2,
             m_degKakudo := e.rotation * 180 / mPi,
             m_string := e.text, m_nPenColor := jwwPenColor e.color }]
        SaveMojiCount := j.SaveMojiCount + 1 }
  | .solid =>
      { j with
        vSolid := j.vSolid ++
          [{ m_start := ⟨e.point1.x, e.point1.y⟩, m_end := ⟨e.point1.x, e.point1.y⟩,
             m_DPoint2 := ⟨e.point1.x, e.point1.y⟩, m_DPoint3 := ⟨e.point1.x, e.point1.y⟩,
             m_Color := 0, m_nPenColor := jwwPenColor e.color }]
        SaveSolidCount := j.SaveSolidCount + 1 }
  | _ => j

/- The export loop of lc_document_save_jww: fold over the document entities
   starting from the freshly initialised JWWDocument.  The surrounding header
   initialisation and the final file write (external codec) do not touch the
   record vectors or counters. -/
def lc_document_save_jww (ops : FloatOps) (d : DocumentImpl) : JWWDocument :=
  d.entities.foldl (saveJwwEntity ops) {}

/- ============================================================
   Spec-side definitions (used only in claim statements)
   ============================================================ -/

/- Per-entity issues as the specification describes them (membership stated
   over the layer/block tables directly); to be compared with `entityChecks`
   as used inside `lc_document_validate`. -/
def entityChecksSpec (d : DocumentImpl) (idx : Nat) (e : EntityData) :
    List LcValidationIssue :=
  (if e.layer ≠ "" ∧ (∀ l ∈ d.layers, l.name ≠ e.layer) then
      [{ severity := .error, code := "UNDEFINED_LAYER",
         message := "Entity references undefined layer: " ++ e.layer,
         location := "entity #" ++ Nat.repr idx }]
    else []) ++
  (if e.type = .insert ∧ e.blockName ≠ "" ∧ (∀ b ∈ d.blocks, b.name ≠ e.blockName) then
      [{ severity := .error, code := "UNDEFINED_BLOCK",
         message := "Insert references undefined block: " ++ e.blockName,
         location := "entity #" ++ Nat.repr idx }]
    else []) ++
  (if (e.type = .circle ∨ e.type = .arc) ∧ e.radius ≤ 0 then
      [{ severity := .error, code := "INVALID_RADIUS",
         message := "Circle/Arc has invalid radius",
         location := "entity #" ++ Nat.repr idx }]
    else [])

/- A document whose bounding box was accumulated by `updateBounds` over an
   arbitrary point sequence from the initial box.  In the adapters the
   bounds fields are written only by `updateBounds` (and by the initialiser),
   so every document the program builds has this shape for some `ps`. -/
def mkDocument (layers : List LayerData) (blocks : List BlockData)
    (entities : List EntityData) (ps : List DRWCoord) : DocumentImpl :=
  ps.foldl DocumentImpl.updateBounds
    { layers := layers, blocks := blocks, entities := entities }

/- Number of document entities of a given kind. -/
def countKind (l : List EntityData) (t : LcEntityType) : Nat :=
  l.countP fun e => e.type == t

/- ============================================================
   Helper lemmas
   ============================================================ -/

/- The is_valid scan: folding the error-severity test over any issue list
   yields true iff no issue has error severity. -/
theorem foldl_isValid_eq_true_iff (l : List LcValidationIssue) :
    l.foldl (fun v i => if i.severity = .error then false else v) true = true ↔
      ∀ i ∈ l, i.severity ≠ .error := by
  have hfalse : ∀ m : List LcValidationIssue,
      m.foldl (fun v i => if i.severity = .error then false else v) false = false := by
    intro m
    induction m with
    | nil => rfl
    | cons a m ih =>
      rw [List.foldl_cons]
      show List.foldl _ (if a.severity = .error then false else false) m = false
      rw [ite_self]
      exact ih
  induction l with
  | nil => simp
  | cons a l ih =>
    rw [List.foldl_cons]
    by_cases h : a.severity = .error
    · show List.foldl _ (if a.severity = .error then false else true) l = true ↔ _
      rw [if_pos h, hfalse l]
      simp [h]
    · show List.foldl _ (if a.severity = .error then false else true) l = true ↔ _
      rw [if_neg h]
      constructor
      · intro ht i hi
        rcases List.mem_cons.mp hi with rfl | hi'
        · exact h
        · exact ih.mp ht i hi'
      · intro hall
        exact ih.mpr fun i hi => hall i (List.mem_cons_of_mem a hi)

/- Bridging: not-contains over the projected name list is the pointwise
   disequality over the table. -/
theorem layers_not_contains_iff (ls : List LayerData) (s : String) :
    (¬ (ls.map fun l => l.name).contains s) ↔ ∀ l ∈ ls, l.name ≠ s := by
  simp

theorem blocks_not_contains_iff (bs : List BlockData) (s : String) :
    (¬ (bs.map fun b => b.name).contains s) ↔ ∀ b ∈ bs, b.name ≠ s := by
  simp

/- The per-entity checks as run by the validator coincide with their
   spec-side description. -/
theorem entityChecks_eq_spec (d : DocumentImpl) (idx : Nat) (e : EntityData) :
    entityChecks (d.layers.map fun l => l.name) (d.blocks.map fun b => b.name) idx e
      = entityChecksSpec d idx e := by
  simp [entityChecks, entityChecksSpec]

/- The validator's indexed fold over the entities produces, after an
   arbitrary prefix, the concatenation of the per-entity check lists in
   document order with consecutive indices. -/
theorem foldl_entityChecks (f : Nat → EntityData → List LcValidationIssue)
    (l : List EntityData) (n : Nat) (acc : List LcValidationIssue) :
    (l.foldl (fun (p : Nat × List LcValidationIssue) e =>
        (p.1 + 1, p.2 ++ f p.1 e)) (n, acc)).2
      = acc ++ (List.enumFrom n l).flatMap fun p => f p.1 p.2 := by
  induction l generalizing n acc with
  | nil => simp
  | cons e l ih =>
    rw [List.foldl_cons, ih]
    simp [List.enumFrom, List.append_assoc]

/- Full decomposition of the validator's issue list: document-scope prefix,
   the per-entity checks in document order (spec-side form), then the bounds
   suffix. -/
theorem validate_issues_decomp (d : DocumentImpl) :
    (lc_document_validate d).issues =
      (if d.entities = [] then [emptyDrawingIssue] else []) ++
      (if (∀ l ∈ d.layers, l.name ≠ "0") ∧ d.layers ≠ [] then [missingLayer0Issue] else []) ++
      ((List.enumFrom 0 d.entities).flatMap fun p => entityChecksSpec d p.1 p.2) ++
      (if d.minBound.x > d.maxBound.x then [invalidBoundsIssue] else []) := by
  have h1 : (if d.entities.isEmpty then [emptyDrawingIssue]
        else ([] : List LcValidationIssue)) =
      (if d.entities = [] then [emptyDrawingIssue] else []) :=
    if_congr (by simp) rfl rfl
  have h2 : (if ¬ (d.layers.any fun l => l.name == "0") ∧ ¬ d.layers.isEmpty then
          [missingLayer0Issue]
        else ([] : List LcValidationIssue)) =
      (if (∀ l ∈ d.layers, l.name ≠ "0") ∧ d.layers ≠ [] then [missingLayer0Issue] else []) :=
    if_congr (by simp [List.any_eq_true, beq_iff_eq, List.isEmpty_iff]) rfl rfl
  simp only [lc_document_validate, foldl_entityChecks, List.nil_append,
    entityChecks_eq_spec, h1, h2, List.append_assoc]

/- After any single updateBounds the box is componentwise ordered. -/
theorem updateBounds_ordered (d : DocumentImpl) (p : DRWCoord) :
    (d.updateBounds p).minBound.x ≤ (d.updateBounds p).maxBound.x ∧
    (d.updateBounds p).minBound.y ≤ (d.updateBounds p).maxBound.y ∧
    (d.updateBounds p).minBound.z ≤ (d.updateBounds p).maxBound.z :=
  ⟨le_trans (min_le_right _ _) (le_max_right _ _),
   le_trans (min_le_right _ _) (le_max_right _ _),
   le_trans (min_le_right _ _) (le_max_right _ _)⟩

/- Componentwise order is preserved by further updateBounds folds. -/
theorem foldl_updateBounds_ordered (ps : List DRWCoord) (d : DocumentImpl)
    (h : d.minBound.x ≤ d.maxBound.x ∧ d.minBound.y ≤ d.maxBound.y ∧
         d.minBound.z ≤ d.maxBound.z) :
    (ps.foldl DocumentImpl.updateBounds d).minBound.x ≤
        (ps.foldl DocumentImpl.updateBounds d).maxBound.x ∧
    (ps.foldl DocumentImpl.updateBounds d).minBound.y ≤
        (ps.foldl DocumentImpl.updateBounds d).maxBound.y ∧
    (ps.foldl DocumentImpl.updateBounds d).minBound.z ≤
        (ps.foldl DocumentImpl.updateBounds d).maxBound.z := by
  induction ps generalizing d with
  | nil => exact h
  | cons p ps ih =>
    rw [List.foldl_cons]
    exact ih _ (updateBounds_ordered d p)

/- Reachable bounds dichotomy: a document whose box was accumulated by
   updateBounds from the initial box either is still in the initial state
   (min > max on every axis) or is ordered on every axis. -/
theorem mkDocument_bounds_dichotomy (layers : List LayerData) (blocks : List BlockData)
    (entities : List EntityData) (ps : List DRWCoord) :
    ((mkDocument layers blocks entities ps).minBound.x >
        (mkDocument layers blocks entities ps).maxBound.x ∧
     (mkDocument layers blocks entities ps).minBound.y >
        (mkDocument layers blocks entities ps).maxBound.y ∧
     (mkDocument layers blocks entities ps).minBound.z >
        (mkDocument layers blocks entities ps).maxBound.z) ∨
    ((mkDocument layers blocks entities ps).minBound.x ≤
        (mkDocument layers blocks entities ps).maxBound.x ∧
     (mkDocument layers blocks entities ps).minBound.y ≤
        (mkDocument layers blocks entities ps).maxBound.y ∧
     (mkDocument layers blocks entities ps).minBound.z ≤
        (mkDocument layers blocks entities ps).maxBound.z) := by
  cases ps with
  | nil =>
    left
    refine ⟨?_, ?_, ?_⟩ <;> · show -(10 ^ 20 : ℚ) < 10 ^ 20; norm_num
  | cons p ps =>
    right
    rw [mkDocument, List.foldl_cons]
    exact foldl_updateBounds_ordered ps _ (updateBounds_ordered _ p)

/- Every issue produced by the per-entity checks carries one of the three
   per-entity diagnostic codes. -/
theorem entityChecksSpec_codes (d : DocumentImpl) (idx : Nat) (e : EntityData)
    (i : LcValidationIssue) (hi : i ∈ entityChecksSpec d idx e) :
    i.code = "UNDEFINED_LAYER" ∨ i.code = "UNDEFINED_BLOCK" ∨ i.code = "INVALID_RADIUS" := by
  unfold entityChecksSpec at hi
  rcases List.mem_append.mp hi with h | h
  · rcases List.mem_append.mp h with h | h
    · rcases List.mem_ite_nil_right.mp h with ⟨-, h⟩
      rw [List.mem_singleton] at h
      subst h
      exact Or.inl rfl
    · rcases List.mem_ite_nil_right.mp h with ⟨-, h⟩
      rw [List.mem_singleton] at h
      subst h
      exact Or.inr (Or.inl rfl)
  · rcases List.mem_ite_nil_right.mp h with ⟨-, h⟩
    rw [List.mem_singleton] at h
    subst h
    exact Or.inr (Or.inr rfl)

/- The INVALID_BOUNDS info issue is emitted by the validator exactly when
   minBound.x > maxBound.x (the only bounds test the source performs). -/
theorem invalid_bounds_mem_iff (d : DocumentImpl) :
    (∃ i ∈ (lc_document_validate d).issues,
        i.code = "INVALID_BOUNDS" ∧ i.severity = .info) ↔
      d.minBound.x > d.maxBound.x := by
  rw [validate_issues_decomp d]
  constructor
  · rintro ⟨i, hi, hcode, -⟩
    simp only [List.mem_append] at hi
    rcases hi with ((h | h) | h) | h
    · rcases List.mem_ite_nil_right.mp h with ⟨-, h⟩
      rw [List.mem_singleton] at h
      subst h
      simp [emptyDrawingIssue] at hcode
    · rcases List.mem_ite_nil_right.mp h with ⟨-, h⟩
      rw [List.mem_singleton] at h
      subst h
      simp [missingLayer0Issue] at hcode
    · rcases List.mem_flatMap.mp h with ⟨p, -, hp⟩
      rcases entityChecksSpec_codes d p.1 p.2 i hp with hc | hc | hc <;>
        · rw [hcode] at hc; simp at hc
    · rcases List.mem_ite_nil_right.mp h with ⟨hcond, -⟩
      exact hcond
  · intro h
    refine ⟨invalidBoundsIssue, ?_, rfl, rfl⟩
    simp only [List.mem_append]
    exact Or.inr (List.mem_ite_nil_right.mpr ⟨h, List.mem_singleton_self _⟩)

/- Pen colours of the export fold, per section: the record pen colours are,
   in order, exactly the clamped colours of the entities of that section's
   kinds — each record carries the clamp of its own entity's colour. -/
theorem saveJww_foldl_penColors (ops : FloatOps) (l : List EntityData) (j : JWWDocument) :
    ((l.foldl (saveJwwEntity ops) j).vTen.map fun r => r.m_nPenColor) =
      (j.vTen.map fun r => r.m_nPenColor) ++
        ((l.filter fun e => e.type == .point).map fun e => jwwPenColor e.color) ∧
    ((l.foldl (saveJwwEntity ops) j).vSen.map fun r => r.m_nPenColor) =
      (j.vSen.map fun r => r.m_nPenColor) ++
        ((l.filter fun e => e.type == .line).map fun e => jwwPenColor e.color) ∧
    ((l.foldl (saveJwwEntity ops) j).vEnko.map fun r => r.m_nPenColor) =
      (j.vEnko.map fun r => r.m_nPenColor) ++
        ((l.filter fun e =>
            e.type == .circle || e.type == .arc || e.type == .ellipse).map
          fun e => jwwPenColor e.color) ∧
    ((l.foldl (saveJwwEntity ops) j).vMoji.map fun r => r.m_nPenColor) =
      (j.vMoji.map fun r => r.m_nPenColor) ++
        ((l.filter fun e => e.type == .text || e.type == .mtext).map
          fun e => jwwPenColor e.color) ∧
    ((l.foldl (saveJwwEntity ops) j).vSolid.map fun r => r.m_nPenColor) =
      (j.vSolid.map fun r => r.m_nPenColor) ++
        ((l.filter fun e => e.type == .solid).map fun e => jwwPenColor e.color) := by
  induction l generalizing j with
  | nil => simp
  | cons e l ih =>
    rw [List.foldl_cons]
    have H := ih (saveJwwEntity ops j e)
    cases htype : e.type <;>
      · simp [saveJwwEntity, htype, List.filter_cons, beq_iff_eq] at H ⊢
        exact H

/- The source's clamp expression in spec form. -/
theorem jwwPenColor_eq_clamp (c : Int) :
    jwwPenColor c = if 1 ≤ c ∧ c ≤ 9 then c else 1 := by
  unfold jwwPenColor
  split_ifs <;> omega

/- Effect of the export fold on all counters, record-vector lengths, and
   per-kind entity counts. -/
theorem saveJww_foldl_stats (ops : FloatOps) (l : List EntityData) (j : JWWDocument) :
    (l.foldl (saveJwwEntity ops) j).SaveTenCount = j.SaveTenCount + countKind l .point ∧
    (l.foldl (saveJwwEntity ops) j).vTen.length = j.vTen.length + countKind l .point ∧
    (l.foldl (saveJwwEntity ops) j).SaveSenCount = j.SaveSenCount + countKind l .line ∧
    (l.foldl (saveJwwEntity ops) j).vSen.length = j.vSen.length + countKind l .line ∧
    (l.foldl (saveJwwEntity ops) j).SaveEnkoCount = j.SaveEnkoCount +
      (countKind l .circle + countKind l .arc + countKind l .ellipse) ∧
    (l.foldl (saveJwwEntity ops) j).vEnko.length = j.vEnko.length +
      (countKind l .circle + countKind l .arc + countKind l .ellipse) ∧
    (l.foldl (saveJwwEntity ops) j).SaveMojiCount = j.SaveMojiCount +
      (countKind l .text + countKind l .mtext) ∧
    (l.foldl (saveJwwEntity ops) j).vMoji.length = j.vMoji.length +
      (countKind l .text + countKind l .mtext) ∧
    (l.foldl (saveJwwEntity ops) j).SaveSolidCount = j.SaveSolidCount + countKind l .solid ∧
    (l.foldl (saveJwwEntity ops) j).vSolid.length = j.vSolid.length + countKind l .solid ∧
    (l.foldl (saveJwwEntity ops) j).SaveSunpouCount = j.SaveSunpouCount ∧
    (l.foldl (saveJwwEntity ops) j).SaveBlockCount = j.SaveBlockCount ∧
    (l.foldl (saveJwwEntity ops) j).SaveDataListCount = j.SaveDataListCount := by
  induction l generalizing j with
  | nil => simp [countKind]
  | cons e l ih =>
    rw [List.foldl_cons]
    have H := ih (saveJwwEntity ops j e)
    cases htype : e.type <;>
      · simp [saveJwwEntity, htype, countKind, List.countP_cons, beq_iff_eq] at H ⊢
        omega

/- ============================================================
   Claim theorems
   ============================================================ -/

/-- Claim C1: for every document D, the validation result of
lc_document_validate(D) has is_valid = true if and only if no issue in its
issue list has severity Error. -/
theorem c1_is_valid_iff_no_error (d : DocumentImpl) :
    (lc_document_validate d).is_valid = true ↔
      ∀ i ∈ (lc_document_validate d).issues, i.severity ≠ .error :=
  foldl_isValid_eq_true_iff ((lc_document_validate d).issues)

/-- Claim C2: for every document (its bounds accumulated by updateBounds from
the initial box, as every document built by the adapters is),
lc_document_validate emits the INVALID_BOUNDS info issue exactly when the
bounding box is uninitialised, i.e. when min > max on any of the three
axes. -/
theorem c2_invalid_bounds_iff (layers : List LayerData) (blocks : List BlockData)
    (entities : List EntityData) (ps : List DRWCoord) :
    (∃ i ∈ (lc_document_validate (mkDocument layers blocks entities ps)).issues,
        i.code = "INVALID_BOUNDS" ∧ i.severity = .info) ↔
      ((mkDocument layers blocks entities ps).minBound.x >
          (mkDocument layers blocks entities ps).maxBound.x ∨
       (mkDocument layers blocks entities ps).minBound.y >
          (mkDocument layers blocks entities ps).maxBound.y ∨
       (mkDocument layers blocks entities ps).minBound.z >
          (mkDocument layers blocks entities ps).maxBound.z) := by
  rw [invalid_bounds_mem_iff]
  rcases mkDocument_bounds_dichotomy layers blocks entities ps with ⟨h1, h2, h3⟩ | ⟨h1, h2, h3⟩
  · exact ⟨fun h => Or.inl h, fun _ => h1⟩
  · constructor
    · intro h
      exact absurd h (not_lt.mpr h1)
    · rintro (h | h | h)
      · exact absurd h (not_lt.mpr h1)
      · exact absurd h (not_lt.mpr h2)
      · exact absurd h (not_lt.mpr h3)

/-- Claim C8: lc_document_validate checks each entity in document order; for
the entity at index N it emits, in this per-entity order, UNDEFINED_LAYER
(error) exactly when the layer reference is non-empty and not in the layer
table, UNDEFINED_BLOCK (error) exactly when the entity is an INSERT with
non-empty blockName not in the block table, and INVALID_RADIUS (error)
exactly when the entity is a CIRCLE or ARC with radius ≤ 0; each issue's
location is "entity #N". -/
theorem c8_validate_per_entity_checks (d : DocumentImpl) :
    ((lc_document_validate d).issues =
      (if d.entities = [] then [emptyDrawingIssue] else []) ++
      (if (∀ l ∈ d.layers, l.name ≠ "0") ∧ d.layers ≠ [] then [missingLayer0Issue] else []) ++
      ((List.enumFrom 0 d.entities).flatMap fun p => entityChecksSpec d p.1 p.2) ++
      (if d.minBound.x > d.maxBound.x then [invalidBoundsIssue] else [])) ∧
    ∀ idx : Nat, ∀ e : EntityData, ∀ i ∈ entityChecksSpec d idx e,
      i.severity = .error ∧ i.location = "entity #" ++ Nat.repr idx := by
  refine ⟨validate_issues_decomp d, fun idx e i hi => ?_⟩
  unfold entityChecksSpec at hi
  rcases List.mem_append.mp hi with h | h
  · rcases List.mem_append.mp h with h | h
    · rcases List.mem_ite_nil_right.mp h with ⟨-, h⟩
      rw [List.mem_singleton] at h
      subst h
      exact ⟨rfl, rfl⟩
    · rcases List.mem_ite_nil_right.mp h with ⟨-, h⟩
      rw [List.mem_singleton] at h
      subst h
      exact ⟨rfl, rfl⟩
  · rcases List.mem_ite_nil_right.mp h with ⟨-, h⟩
    rw [List.mem_singleton] at h
    subst h
    exact ⟨rfl, rfl⟩

/-- Claim C9: when the document fails to open, lc_validate returns a result
with is_valid = 0, issue_count = 1, and a single Error issue with code
"FILE_ERROR", message equal to the last-error text, and location equal to
the filename.  (The failed open is the `none` argument; `lastError` is the
thread-local error text it left behind.) -/
theorem c9_lc_validate_file_error (filename lastError : String) :
    lc_validate none filename lastError =
      { is_valid := false, issue_count := 1,
        issues := [{ severity := .error, code := "FILE_ERROR",
                     message := lastError, location := filename }] } := rfl

/-- Claim C3 (counterexample): a block-begin while a block is already open
does NOT fail: processing two consecutive block-begin events succeeds, and a
block-end with no open block also succeeds — no MalformedInput is raised
(the source callbacks have no failure path). -/
theorem c3_counterexample :
    (DocumentImpl.processEvents {} [ReadEvent.blockBegin { name := "A" },
        ReadEvent.blockBegin { name := "B" }] ≠
      Except.error ReadError.malformedInput) ∧
    (DocumentImpl.processEvents {} [ReadEvent.blockEnd] ≠
      Except.error ReadError.malformedInput) ∧
    (DocumentImpl.processEvents {} [ReadEvent.blockBegin { name := "A" },
        ReadEvent.blockBegin { name := "B" }]).toOption.isSome = true ∧
    (DocumentImpl.processEvents {} [ReadEvent.blockEnd]).toOption.isSome = true := by
  refine ⟨fun h => ?_, fun h => ?_, rfl, rfl⟩ <;> exact Except.noConfusion h

/-- Claim C3 (amended): a block-begin event is always accepted, even while a
block is already open — the new block is appended and becomes current; a
block-end event is always accepted, even with no open block — the current
block is reset to model space (for the JWW adapter, begin does not touch the
current block and end is a no-op).  Neither fails. -/
theorem c3_amended_block_events_accepted (d : DocumentImpl) (data : DRW_Block)
    (jdata : DL_BlockData) :
    d.processEvent (ReadEvent.blockBegin data) =
      .ok { d with blocks := d.blocks ++ [{ name := data.name, basePoint := data.basePoint }],
                   currentBlock := some d.blocks.length } ∧
    d.processEvent ReadEvent.blockEnd = .ok { d with currentBlock := none } ∧
    JwwReaderImpl.processEvent d (JwwEvent.blockBegin jdata) =
      .ok { d with blocks := d.blocks ++
          [{ name := jdata.name, basePoint := ⟨jdata.bpx, jdata.bpy, jdata.bpz⟩ }] } ∧
    JwwReaderImpl.processEvent d JwwEvent.blockEnd = .ok d :=
  ⟨rfl, rfl, rfl, rfl⟩

/-- Claim C4 (counterexample): the JWW reader adapter's CIRCLE handler adds
the entity but does NOT update the document bounding box: after reading a
circle of radius 1 at the origin into a fresh document, the bounds are still
the initial box and do not enclose the circle. -/
theorem c4_counterexample :
    (JwwReaderImpl.addCircle {} { cx := 0, cy := 0, cz := 0, radius := 1 }).entities.length = 1 ∧
    (JwwReaderImpl.addCircle {} { cx := 0, cy := 0, cz := 0, radius := 1 }).minBound =
      ({} : DocumentImpl).minBound ∧
    (JwwReaderImpl.addCircle {} { cx := 0, cy := 0, cz := 0, radius := 1 }).maxBound =
      ({} : DocumentImpl).maxBound ∧
    ¬ ((JwwReaderImpl.addCircle {} { cx := 0, cy := 0, cz := 0, radius := 1 }).minBound.x ≤ 0 - 1 ∧
       (JwwReaderImpl.addCircle {} { cx := 0, cy := 0, cz := 0, radius := 1 }).maxBound.x ≥ 0 + 1) := by
  refine ⟨rfl, rfl, rfl, ?_⟩
  rintro ⟨h, -⟩
  norm_num [JwwReaderImpl.addCircle, DocumentImpl.addEntityData] at h

/-- Claim C4 (amended): the DXF adapter extends the bounding box of every
CIRCLE and ARC to the axis-aligned enclosure of the circle (centre ± radius
on x and y, never shrinking the box); the JWW adapter's CIRCLE and ARC
handlers leave the bounding box unchanged. -/
theorem c4_amended_circle_bounds (d : DocumentImpl) (cdata : DRW_Circle) (adata : DRW_Arc)
    (cj : DL_CircleData) (aj : DL_ArcData) :
    ((d.addCircle cdata).minBound.x ≤ cdata.basePoint.x - cdata.radious ∧
     (d.addCircle cdata).minBound.y ≤ cdata.basePoint.y - cdata.radious ∧
     (d.addCircle cdata).maxBound.x ≥ cdata.basePoint.x + cdata.radious ∧
     (d.addCircle cdata).maxBound.y ≥ cdata.basePoint.y + cdata.radious) ∧
    ((d.addArc adata).minBound.x ≤ adata.basePoint.x - adata.radious ∧
     (d.addArc adata).minBound.y ≤ adata.basePoint.y - adata.radious ∧
     (d.addArc adata).maxBound.x ≥ adata.basePoint.x + adata.radious ∧
     (d.addArc adata).maxBound.y ≥ adata.basePoint.y + adata.radious) ∧
    ((JwwReaderImpl.addCircle d cj).minBound = d.minBound ∧
     (JwwReaderImpl.addCircle d cj).maxBound = d.maxBound) ∧
    ((JwwReaderImpl.addArc d aj).minBound = d.minBound ∧
     (JwwReaderImpl.addArc d aj).maxBound = d.maxBound) := by
  refine ⟨⟨?_, ?_, ?_, ?_⟩, ⟨?_, ?_, ?_, ?_⟩, ⟨rfl, rfl⟩, ⟨rfl, rfl⟩⟩ <;>
    · simp only [DocumentImpl.addCircle, DocumentImpl.addArc, DocumentImpl.updateBounds,
        DocumentImpl.addEntityData, ge_iff_le]
      first
      | exact le_trans (min_le_left _ _) (min_le_right _ _)
      | exact le_max_right _ _

/-- Claim C5 (counterexample): receiving two layer events with the same name
"A" leaves TWO layers named "A" in the layer table — the later event is
added as well, so duplicate layer names do occur after a successful read. -/
theorem c5_counterexample :
    ((DocumentImpl.processEvents {} [ReadEvent.layer { name := "A" },
        ReadEvent.layer { name := "A", color := 2 }]).toOption.map
      fun d => d.layers.map fun l => l.name) = some ["A", "A"] ∧
    ¬ (["A", "A"] : List String).Nodup := by
  exact ⟨rfl, by decide⟩

/-- Claim C5 (amended): both reader adapters append every layer event to the
layer table unconditionally and in order; a later event with an existing
name is appended as well (no first-writer-wins filtering, duplicates are
retained). -/
theorem c5_amended_layers_appended (d : DocumentImpl) (data : DRW_Layer)
    (jdata : DL_LayerData) :
    (d.addLayer data).layers = d.layers ++
      [{ name := data.name, color := data.color, lineType := data.lineType,
         lineWeight := data.lWeight,
         off := (data.flags &&& 1) != 0,
         frozen := (data.flags &&& 2) != 0,
         locked := (data.flags &&& 4) != 0 }] ∧
    (JwwReaderImpl.addLayer d jdata).layers = d.layers ++ [{ name := jdata.name }] :=
  ⟨rfl, rfl⟩

/-- Claim C6: on JWW emission of an ARC whose endAngle is less than its
startAngle, the arc is interpreted as crossing 0: the emitted record's
m_radEnkoKaku equals endAngle − startAngle + 2π (with 2π the double constant
the program uses). -/
theorem c6_jww_arc_wraparound (ops : FloatOps) (j : JWWDocument) (e : EntityData)
    (htype : e.type = .arc) (hwrap : e.endAngle < e.startAngle) :
    (saveJwwEntity ops j e).vEnko = j.vEnko ++
      [{ m_start := ⟨e.point1.x, e.point1.y⟩, m_dHankei := e.radius,
         m_radKaishiKaku := e.startAngle,
         m_radEnkoKaku := e.endAngle - e.startAngle + twoPi,
         m_radKatamukiKaku := 0, m_dHenpeiRitsu := 1, m_bZenEnFlg := 0,
         m_nPenColor := jwwPenColor e.color }] := by
  have hneg : e.endAngle - e.startAngle < 0 := sub_neg.mpr hwrap
  simp [saveJwwEntity, htype, hneg]

/-- Witness for C6 at the spec's concrete scenario: ARC with startAngle 5.5,
endAngle 0.5; the emitted angle is 0.5 − 5.5 + 2π, which lies strictly
between 1.283 and 1.284 (≈ 1.2832 radians). -/
theorem c6_witness :
    (saveJwwEntity zeroFloatOps {}
        { type := .arc, radius := 1, startAngle := 11 / 2, endAngle := 1 / 2 }).vEnko =
      ({} : JWWDocument).vEnko ++
        [{ m_start := ⟨0, 0⟩, m_dHankei := 1, m_radKaishiKaku := 11 / 2,
           m_radEnkoKaku := 1 / 2 - 11 / 2 + twoPi, m_radKatamukiKaku := 0,
           m_dHenpeiRitsu := 1, m_bZenEnFlg := 0, m_nPenColor := 1 }] ∧
    1283 / 1000 < (1 : ℚ) / 2 - 11 / 2 + twoPi ∧
    (1 : ℚ) / 2 - 11 / 2 + twoPi < 1284 / 1000 := by
  refine ⟨?_, by norm_num [twoPi, mPi], by norm_num [twoPi, mPi]⟩
  rw [c6_jww_arc_wraparound zeroFloatOps {}
    { type := .arc, radius := 1, startAngle := 11 / 2, endAngle := 1 / 2 }
    rfl (by norm_num)]
  rfl

/-- Claim C7: for every entity emitted to JWW, the pen colour written in its
record equals that entity's neutral colour index when it lies in [1,9] and 1
otherwise: per section, the record pen colours are pointwise (in document
order) the clamped colours of the entities of that section's kinds — the
i-th Ten/Sen/Enko/Moji/Solid record carries the clamp of the i-th
POINT / LINE / CIRCLE+ARC+ELLIPSE / TEXT+MTEXT / SOLID entity's colour. -/
theorem c7_jww_pen_clamp (ops : FloatOps) (d : DocumentImpl) :
    ((lc_document_save_jww ops d).vTen.map fun r => r.m_nPenColor) =
      ((d.entities.filter fun e => e.type == .point).map
        fun e => if 1 ≤ e.color ∧ e.color ≤ 9 then e.color else 1) ∧
    ((lc_document_save_jww ops d).vSen.map fun r => r.m_nPenColor) =
      ((d.entities.filter fun e => e.type == .line).map
        fun e => if 1 ≤ e.color ∧ e.color ≤ 9 then e.color else 1) ∧
    ((lc_document_save_jww ops d).vEnko.map fun r => r.m_nPenColor) =
      ((d.entities.filter fun e =>
          e.type == .circle || e.type == .arc || e.type == .ellipse).map
        fun e => if 1 ≤ e.color ∧ e.color ≤ 9 then e.color else 1) ∧
    ((lc_document_save_jww ops d).vMoji.map fun r => r.m_nPenColor) =
      ((d.entities.filter fun e => e.type == .text || e.type == .mtext).map
        fun e => if 1 ≤ e.color ∧ e.color ≤ 9 then e.color else 1) ∧
    ((lc_document_save_jww ops d).vSolid.map fun r => r.m_nPenColor) =
      ((d.entities.filter fun e => e.type == .solid).map
        fun e => if 1 ≤ e.color ∧ e.color ≤ 9 then e.color else 1) := by
  have H := saveJww_foldl_penColors ops d.entities {}
  simp only [jwwPenColor_eq_clamp] at H
  simp only [lc_document_save_jww]
  simpa using H

/-- Claim C10: after the JWW export loop, each section counter equals the
length of its record vector and the number of document entities of the
corresponding kinds (POINT for Ten, LINE for Sen, CIRCLE+ARC+ELLIPSE for
Enko, TEXT+MTEXT for Moji, SOLID for Solid); entities of every other kind
are skipped and no other counter moves. -/
theorem c10_jww_section_counters (ops : FloatOps) (d : DocumentImpl) :
    (lc_document_save_jww ops d).SaveTenCount = (lc_document_save_jww ops d).vTen.length ∧
    (lc_document_save_jww ops d).vTen.length = countKind d.entities .point ∧
    (lc_document_save_jww ops d).SaveSenCount = (lc_document_save_jww ops d).vSen.length ∧
    (lc_document_save_jww ops d).vSen.length = countKind d.entities .line ∧
    (lc_document_save_jww ops d).SaveEnkoCount = (lc_document_save_jww ops d).vEnko.length ∧
    (lc_document_save_jww ops d).vEnko.length =
      countKind d.entities .circle + countKind d.entities .arc + countKind d.entities .ellipse ∧
    (lc_document_save_jww ops d).SaveMojiCount = (lc_document_save_jww ops d).vMoji.length ∧
    (lc_document_save_jww ops d).vMoji.length =
      countKind d.entities .text + countKind d.entities .mtext ∧
    (lc_document_save_jww ops d).SaveSolidCount = (lc_document_save_jww ops d).vSolid.length ∧
    (lc_document_save_jww ops d).vSolid.length = countKind d.entities .solid ∧
    (lc_document_save_jww ops d).SaveSunpouCount = 0 ∧
    (lc_document_save_jww ops d).SaveBlockCount = 0 ∧
    (lc_document_save_jww ops d).SaveDataListCount = 0 := by
  have H := saveJww_foldl_stats ops d.entities {}
  simp only [lc_document_save_jww]
  simp at H
  obtain ⟨h1, h2, h3, h4, h5, h6, h7, h8, h9, h10, h11, h12, h13⟩ := H
  refine ⟨?_, ?_, ?_, ?_, ?_, ?_, ?_, ?_, ?_, ?_, ?_, ?_, ?_⟩ <;> omega
